import Mathlib

/-!
Verification of the Twilio call client (Next.js single-page app).

The development shallowly embeds the two code units the claims are about:

* the token endpoint (`src/unnamed/part_000`, a Next.js API route handler),
  modelled by `handlerCore` / `handler`;
* the page component `Home` in `src/pages/index.tsx`, whose React state is
  modelled by `ClientState` and whose callbacks and event handlers are
  modelled as functions `ClientState → ClientState` (paired with the list of
  timeouts they schedule, when they call `setTimeout`).

JavaScript truthiness of possibly-absent string fields is modelled by
`truthy : Option String → Bool` (absent/undefined and the empty string are
falsy).  Asynchronous outcomes (fetch results, `device.register()` promises)
are passed in as explicit outcome parameters.
-/

namespace TwilioCallClient

/-- JavaScript truthiness of a possibly-absent string value: `none` models
`undefined`, and the empty string is falsy. -/
def truthy : Option String → Bool
  | none => false
  | some s => s ≠ ""

/-! ## Token endpoint (`src/unnamed/part_000`) -/

/-- The request body of `POST /api/token`: four possibly-absent string
fields, destructured as `const { accountSid, apiKey, apiSecret, appSid } =
req.body` in the handler. -/
structure TokenRequest where
  method : String
  accountSid : Option String
  apiKey : Option String
  apiSecret : Option String
  appSid : Option String
deriving Repr, DecidableEq

/-- The voice grant added to the access token: built in the handler as
`new VoiceGrant({ outgoingApplicationSid: appSid, incomingAllow: false })`. -/
structure VoiceGrant where
  outgoingApplicationSid : String
  incomingAllow : Bool
deriving Repr, DecidableEq

/-- The access token the handler constructs:
`new AccessToken(accountSid, apiKey, apiSecret, { identity, ttl: 3600 })`
followed by `accessToken.addGrant(voiceGrant)`. -/
structure AccessToken where
  accountSid : String
  apiKey : String
  apiSecret : String
  identity : String
  ttl : Nat
  grants : List VoiceGrant
deriving Repr, DecidableEq

/-- Response body: either the success JSON `{token, identity}` or the error
JSON `{error}`. -/
inductive ResponseBody where
  | tokenBody (token : String) (identity : String)
  | errorBody (error : String)
deriving Repr, DecidableEq

/-- An HTTP response: status code plus JSON body. -/
structure ApiResponse where
  status : Nat
  body : ResponseBody
deriving Repr, DecidableEq

/-- The access token built in the handler's `try` block for a request whose
presence check passed: identity `"web-client"`, `ttl: 3600`, and a single
voice grant bound to the supplied `appSid` with `incomingAllow: false`. -/
def buildAccessToken (accountSid apiKey apiSecret appSid : String) : AccessToken :=
  { accountSid := accountSid
    apiKey := apiKey
    apiSecret := apiSecret
    identity := "web-client"
    ttl := 3600
    grants := [{ outgoingApplicationSid := appSid, incomingAllow := false }] }

/-- The API route handler of `src/unnamed/part_000`.  `sign` models
`accessToken.toJwt()`, which either returns the serialized JWT or throws
(caught by the handler's `catch`).  Besides the response, the result records
the access token constructed in the `try` block (`none` when control never
reaches the `try` block). -/
def handlerCore (sign : AccessToken → Except String String) (req : TokenRequest) :
    ApiResponse × Option AccessToken :=
  if req.method ≠ "POST" then
    (⟨405, .errorBody "Method not allowed"⟩, none)
  else if ¬ (truthy req.accountSid ∧ truthy req.apiKey ∧
             truthy req.apiSecret ∧ truthy req.appSid) then
    (⟨400, .errorBody "Missing required Twilio credentials in request body"⟩, none)
  else
    let tok := buildAccessToken (req.accountSid.getD "") (req.apiKey.getD "")
      (req.apiSecret.getD "") (req.appSid.getD "")
    match sign tok with
    | .ok jwt => (⟨200, .tokenBody jwt "web-client"⟩, some tok)
    | .error _ => (⟨500, .errorBody "Failed to generate access token"⟩, some tok)

/-- The response sent by the token endpoint. -/
def handler (sign : AccessToken → Except String String) (req : TokenRequest) :
    ApiResponse :=
  (handlerCore sign req).1

/-- A signer that always succeeds, returning a fixed JWT string. -/
def signOk : AccessToken → Except String String := fun _ => .ok "jwt0"

/-- A signer that always throws, as `toJwt` does on bad credentials. -/
def signFail : AccessToken → Except String String := fun _ => .error "bad credentials"

/-- A GET request to the token endpoint. -/
def reqGet : TokenRequest :=
  { method := "GET", accountSid := some "AC1", apiKey := some "SK1"
    apiSecret := some "s", appSid := some "AP1" }

/-- A POST request with `apiSecret` omitted from the body. -/
def reqMissingSecret : TokenRequest :=
  { method := "POST", accountSid := some "AC1", apiKey := some "SK1"
    apiSecret := none, appSid := some "AP1" }

/-- A POST request with all four fields present and non-empty. -/
def reqFull : TokenRequest :=
  { method := "POST", accountSid := some "AC1", apiKey := some "SK1"
    apiSecret := some "s", appSid := some "AP1" }

/-- A POST request whose `apiSecret` field is the empty string. -/
def reqEmptySecret : TokenRequest :=
  { method := "POST", accountSid := some "AC1", apiKey := some "SK1"
    apiSecret := some "", appSid := some "AP1" }

/-! ## Client page component (`src/pages/index.tsx`) -/

/-- `type CallStatus = 'idle' | 'connecting' | 'in-call' | 'call-ended' | 'error'`. -/
inductive CallStatus where
  | idle
  | connecting
  | inCall
  | callEnded
  | error
deriving Repr, DecidableEq

/-- The JSON object stored under the `twilioCredentials` localStorage key:
each field may be absent (`undefined` after `JSON.parse`). -/
structure StoredCreds where
  accountSid : Option String
  apiKey : Option String
  apiSecret : Option String
  appSid : Option String
deriving Repr, DecidableEq

/-- The state of the `twilioCredentials` localStorage key: absent (`getItem`
returns null), present but not valid JSON (`JSON.parse` throws), or a parsed
object. -/
inductive StoredValue where
  | absent
  | malformed
  | parsed (c : StoredCreds)
deriving Repr, DecidableEq

/-- The four credential strings, as held in the component's React state. -/
structure Credentials where
  accountSid : String
  apiKey : String
  apiSecret : String
  appSid : String
deriving Repr, DecidableEq

/-- What `saveCredentialsToStorage` writes: the four state fields verbatim. -/
def toStored (c : Credentials) : StoredCreds :=
  { accountSid := some c.accountSid, apiKey := some c.apiKey
    apiSecret := some c.apiSecret, appSid := some c.appSid }

/-- The React state of the `Home` component, together with the browser
resources it manages: the localStorage key, the set of constructed and not
yet destroyed `Device` objects (identified by allocation order), the set of
successfully registered devices, and the interval timer. -/
structure ClientState where
  callStatus : CallStatus
  statusMessage : String
  isLoading : Bool
  callDuration : Nat
  accountSid : String
  apiKey : String
  apiSecret : String
  appSid : String
  isConfigured : Bool
  showConfigForm : Bool
  deviceRef : Option Nat
  currentCallRef : Option Nat
  timerRef : Option Nat
  storage : StoredValue
  aliveDevices : List Nat
  registeredDevices : List Nat
  nextDeviceId : Nat
  nextTimerId : Nat
deriving Repr, DecidableEq

/-- The component's initial state (the `useState` initial values), with the
pre-existing content of localStorage. -/
def initialState (stored : StoredValue) : ClientState :=
  { callStatus := .idle
    statusMessage := "Enter Twilio credentials to start"
    isLoading := false
    callDuration := 0
    accountSid := ""
    apiKey := ""
    apiSecret := ""
    appSid := ""
    isConfigured := false
    showConfigForm := false
    deviceRef := none
    currentCallRef := none
    timerRef := none
    storage := stored
    aliveDevices := []
    registeredDevices := []
    nextDeviceId := 0
    nextTimerId := 0 }

/-- The credential fields currently held in component state. -/
def stateCreds (s : ClientState) : Credentials :=
  { accountSid := s.accountSid, apiKey := s.apiKey
    apiSecret := s.apiSecret, appSid := s.appSid }

/-- JavaScript `String.prototype.trim`: the string with whitespace removed
from both ends. -/
def jsTrim (s : String) : String :=
  ⟨((s.data.dropWhile Char.isWhitespace).reverse.dropWhile Char.isWhitespace).reverse⟩

/-- JavaScript `String.prototype.startsWith`. -/
def jsStartsWith (s p : String) : Bool :=
  p.data.isPrefixOf s.data

/-- JavaScript `String.prototype.length` (character count). -/
def jsLength (s : String) : Nat :=
  s.data.length

/-- `areCredentialsComplete`: all four fields non-empty after trimming, and
the three identifiers satisfy their prefix and length checks
(`startsWith('AC')`/`'SK'`/`'AP'` and trimmed length `> 20`). -/
def areCredentialsComplete (c : Credentials) : Bool :=
  let hasAllFields := jsTrim c.accountSid ≠ "" ∧ jsTrim c.apiKey ≠ "" ∧
    jsTrim c.apiSecret ≠ "" ∧ jsTrim c.appSid ≠ ""
  if ¬ hasAllFields then false
  else
    let isValidAccountSid := jsStartsWith (jsTrim c.accountSid) "AC" ∧
      jsLength (jsTrim c.accountSid) > 20
    let isValidApiKey := jsStartsWith (jsTrim c.apiKey) "SK" ∧
      jsLength (jsTrim c.apiKey) > 20
    let isValidAppSid := jsStartsWith (jsTrim c.appSid) "AP" ∧
      jsLength (jsTrim c.appSid) > 20
    isValidAccountSid ∧ isValidApiKey ∧ isValidAppSid

/-- `clearInvalidCredentials`: removes the localStorage key, empties the four
in-memory fields, marks unconfigured, shows the form, and sets the message. -/
def clearInvalidCredentials (s : ClientState) : ClientState :=
  { s with storage := .absent
           accountSid := "", apiKey := "", apiSecret := "", appSid := ""
           isConfigured := false
           showConfigForm := true
           statusMessage := "Please enter valid Twilio credentials" }

/-- The credential-loading `useEffect` that runs on mount: reads the
`twilioCredentials` key from `s.storage`.  If absent, shows the form; if
`JSON.parse` throws, removes the key and shows the form; otherwise copies the
fields into state (defaulting absent fields to `""`), and — when all four are
truthy — checks `accountSid`, `apiKey` and `appSid` against the placeholder
`"***"` (clearing on a match) before marking the component configured. -/
def loadCredentials (s : ClientState) : ClientState :=
  match s.storage with
  | .absent => { s with showConfigForm := true }
  | .malformed => { s with storage := .absent, showConfigForm := true }
  | .parsed c =>
    let s1 := { s with accountSid := c.accountSid.getD ""
                       apiKey := c.apiKey.getD ""
                       apiSecret := c.apiSecret.getD ""
                       appSid := c.appSid.getD "" }
    if truthy c.accountSid ∧ truthy c.apiKey ∧ truthy c.apiSecret ∧ truthy c.appSid then
      if c.accountSid = some "***" ∨ c.apiKey = some "***" ∨ c.appSid = some "***" then
        clearInvalidCredentials s1
      else
        { s1 with isConfigured := true, statusMessage := "Ready to call" }
    else
      { s1 with showConfigForm := true }

/-- `handleConfigure`, with the outcome of the `/api/token` probe passed in
(`Except.ok` when `response.ok`, `Except.error` with the surfaced message
otherwise).  When incomplete, only the status message changes.  On probe
success the credentials are persisted, the component is marked configured and
the form hidden; the trailing fire-and-forget `initializeDevice()` call is
modelled as a separate step (`initializeDevice` below), so `isLoading`
remains `true` here.  On probe failure the message is set and loading ends. -/
def handleConfigure (probe : Except String Unit) (s : ClientState) : ClientState :=
  if ¬ areCredentialsComplete (stateCreds s) then
    { s with statusMessage := "Please fill in all Twilio credentials" }
  else
    match probe with
    | .ok _ =>
      { s with isLoading := true
               storage := .parsed (toStored (stateCreds s))
               isConfigured := true
               showConfigForm := false
               statusMessage := "Credentials validated! Ready to call" }
    | .error msg =>
      { s with isLoading := false
               statusMessage := "Credential validation failed: " ++ msg }

/-- `resetConfiguration`: unconfigures, returns the status to idle, shows the
form, empties the in-memory credential fields, removes the localStorage key,
and destroys the current device (clearing its reference).  It does not touch
`timerRef`, `currentCallRef` or `callDuration`. -/
def resetConfiguration (s : ClientState) : ClientState :=
  let s1 := { s with isConfigured := false
                     callStatus := .idle
                     statusMessage := "Enter Twilio credentials to start"
                     showConfigForm := true
                     accountSid := "", apiKey := "", apiSecret := "", appSid := ""
                     storage := .absent }
  match s1.deviceRef with
  | some id =>
    { s1 with aliveDevices := s1.aliveDevices.erase id
              registeredDevices := s1.registeredDevices.erase id
              deviceRef := none }
  | none => s1

/-- The body of a `setTimeout` callback scheduled by the component.  The call
event handlers (`disconnect`, `cancel`, `reject`, `error`) all schedule
`resetToReady`; the `catch` of `makeCall` schedules `resetAfterFailedCall`,
which does not reset the duration. -/
inductive TimeoutAction where
  | resetToReady
  | resetAfterFailedCall
deriving Repr, DecidableEq

/-- Executes a scheduled `setTimeout` callback on the component state. -/
def applyTimeout : TimeoutAction → ClientState → ClientState
  | .resetToReady, s =>
    { s with callStatus := .idle, statusMessage := "Ready to call", callDuration := 0 }
  | .resetAfterFailedCall, s =>
    { s with callStatus := .idle, statusMessage := "Ready to call" }

/-- A scheduled timeout: delay in milliseconds and the callback body. -/
abbrev Scheduled := Nat × TimeoutAction

/-- The `device.on('registered')` handler set up in `initializeDevice`. -/
def onDeviceRegistered (s : ClientState) : ClientState × List Scheduled :=
  ({ s with statusMessage := "Device ready - Click to call agent"
            isLoading := false
            callStatus := .idle }, [])

/-- The `device.on('error')` handler set up in `initializeDevice`: sets the
error status and message and ends loading.  It schedules no timeout. -/
def onDeviceError (msg : String) (s : ClientState) : ClientState × List Scheduled :=
  ({ s with callStatus := .error
            statusMessage := "Device error: " ++ msg
            isLoading := false }, [])

/-- The `call.on('accept')` handler set up in `makeCall`: enters the in-call
status, resets the duration to zero, and starts the 1-second interval timer. -/
def onCallAccept (s : ClientState) : ClientState × List Scheduled :=
  ({ s with callStatus := .inCall
            statusMessage := "In call with agent"
            callDuration := 0
            timerRef := some s.nextTimerId
            nextTimerId := s.nextTimerId + 1 }, [])

/-- One firing of the interval timer started by the `accept` handler:
`setCallDuration(prev => prev + 1)`. -/
def durationTick (s : ClientState) : ClientState :=
  { s with callDuration := s.callDuration + 1 }

/-- The `call.on('disconnect')` handler set up in `makeCall`: moves to the
call-ended status, clears the call reference, cancels and clears the interval
timer, and schedules a reset to the ready state after 3000 ms. -/
def onCallDisconnect (s : ClientState) : ClientState × List Scheduled :=
  ({ s with callStatus := .callEnded
            statusMessage := "Call ended"
            currentCallRef := none
            timerRef := none }, [(3000, .resetToReady)])

/-- The `call.on('cancel')` handler set up in `makeCall`. -/
def onCallCancel (s : ClientState) : ClientState × List Scheduled :=
  ({ s with callStatus := .callEnded
            statusMessage := "Call cancelled"
            currentCallRef := none
            timerRef := none }, [(3000, .resetToReady)])

/-- The `call.on('reject')` handler set up in `makeCall`. -/
def onCallReject (s : ClientState) : ClientState × List Scheduled :=
  ({ s with callStatus := .callEnded
            statusMessage := "Call rejected"
            currentCallRef := none
            timerRef := none }, [(3000, .resetToReady)])

/-- The `call.on('error')` handler set up in `makeCall`: enters the error
status, clears the call reference, cancels and clears the interval timer, and
schedules a reset to the ready state after 3000 ms. -/
def onCallError (msg : String) (s : ClientState) : ClientState × List Scheduled :=
  ({ s with callStatus := .error
            statusMessage := "Call error: " ++ msg
            currentCallRef := none
            timerRef := none }, [(3000, .resetToReady)])

/-- The `catch` block of `makeCall` (the `device.connect` call threw). -/
def makeCallFailure (s : ClientState) : ClientState × List Scheduled :=
  ({ s with callStatus := .error
            statusMessage := "Failed to make call" }, [(3000, .resetAfterFailedCall)])

/-- The outcome of the asynchronous part of `initializeDevice`: the token
fetch fails (non-ok response, missing token, or a thrown fetch error — all
reach the `catch` before any `Device` is constructed), or the fetch succeeds
but `device.register()` rejects (the `catch` runs after the `Device` was
constructed), or everything succeeds. -/
inductive InitOutcome where
  | fetchFail (msg : String)
  | registerFail (msg : String)
  | ok
deriving Repr, DecidableEq

/-- `initializeDevice`, with the asynchronous outcome passed in.  If the
credentials are incomplete it sets the error status and returns.  Otherwise
any existing device is destroyed and its reference cleared before anything
else.  On `fetchFail` no device is constructed and the `catch` sets the error
status.  On `registerFail` a device was constructed (it joins
`aliveDevices`) but never registered, stored or destroyed, and the `catch`
sets the error status.  On `ok` the new device is constructed, registered and
stored, and the `registered` event handler fires.  No branch schedules a
timeout. -/
def initializeDevice (outcome : InitOutcome) (s : ClientState) :
    ClientState × List Scheduled :=
  if ¬ areCredentialsComplete (stateCreds s) then
    ({ s with statusMessage := "Missing Twilio credentials. Please configure first."
              callStatus := .error }, [])
  else
    let s1 :=
      match s.deviceRef with
      | some id =>
        { s with aliveDevices := s.aliveDevices.erase id
                 registeredDevices := s.registeredDevices.erase id
                 deviceRef := none }
      | none => s
    let s2 := { s1 with isLoading := true
                        statusMessage := "Initializing Twilio Device..." }
    match outcome with
    | .fetchFail msg =>
      ({ s2 with callStatus := .error
                 statusMessage := "Failed to initialize device: " ++ msg
                 isLoading := false }, [])
    | .registerFail msg =>
      let newId := s2.nextDeviceId
      ({ s2 with aliveDevices := s2.aliveDevices ++ [newId]
                 nextDeviceId := newId + 1
                 callStatus := .error
                 statusMessage := "Failed to initialize device: " ++ msg
                 isLoading := false }, [])
    | .ok =>
      let newId := s2.nextDeviceId
      let s3 := { s2 with aliveDevices := s2.aliveDevices ++ [newId]
                          nextDeviceId := newId + 1
                          registeredDevices := s2.registeredDevices ++ [newId]
                          deviceRef := some newId }
      ((onDeviceRegistered s3).1, [])

/-! ## Concrete example inputs -/

/-- A well-formed account SID: prefix `AC`, length 27. -/
def vAC : String := "ACxxxxxxxxxxxxxxxxxxxxxxxxx"

/-- A well-formed API key SID: prefix `SK`, length 27. -/
def vSK : String := "SKxxxxxxxxxxxxxxxxxxxxxxxxx"

/-- A well-formed TwiML application SID: prefix `AP`, length 27. -/
def vAP : String := "APxxxxxxxxxxxxxxxxxxxxxxxxx"

/-- A stored credential object whose `apiSecret` is the masked placeholder
`"***"` while the other three fields are well-formed. -/
def storedMaskedSecret : StoredCreds :=
  { accountSid := some vAC, apiKey := some vSK
    apiSecret := some "***", appSid := some vAP }

/-- A freshly mounted component with complete, well-formed credentials
entered in the form and no device yet. -/
def configuredStart : ClientState :=
  { initialState .absent with
      accountSid := vAC, apiKey := vSK, apiSecret := "s3cret", appSid := vAP }

/-- A component in the middle of a call: device 0 registered and referenced,
call 0 active, the interval timer running, 12 seconds elapsed. -/
def inCallState : ClientState :=
  { configuredStart with
      callStatus := .inCall
      statusMessage := "In call with agent"
      callDuration := 12
      isConfigured := true
      deviceRef := some 0
      currentCallRef := some 0
      timerRef := some 0
      storage := .parsed (toStored (stateCreds configuredStart))
      aliveDevices := [0]
      registeredDevices := [0]
      nextDeviceId := 1
      nextTimerId := 1 }

/-! ## Theorems -/

/-- C4: for every request to the token endpoint, a non-POST method returns
405 with an error body; a POST missing any of the four credential fields
returns 400 with the missing-credentials error body; a POST with all four
fields present where signing succeeds returns 200 with body
`{token, identity: "web-client"}`; and a signing failure returns 500 with an
error body. -/
theorem tokenEndpoint_responses (sign : AccessToken → Except String String)
    (req : TokenRequest) :
    (req.method ≠ "POST" →
      handler sign req = ⟨405, .errorBody "Method not allowed"⟩) ∧
    (req.method = "POST" →
      ¬ (truthy req.accountSid ∧ truthy req.apiKey ∧
         truthy req.apiSecret ∧ truthy req.appSid) →
      handler sign req =
        ⟨400, .errorBody "Missing required Twilio credentials in request body"⟩) ∧
    (∀ jwt, req.method = "POST" →
      (truthy req.accountSid ∧ truthy req.apiKey ∧
       truthy req.apiSecret ∧ truthy req.appSid) →
      sign (buildAccessToken (req.accountSid.getD "") (req.apiKey.getD "")
        (req.apiSecret.getD "") (req.appSid.getD "")) = .ok jwt →
      handler sign req = ⟨200, .tokenBody jwt "web-client"⟩) ∧
    (∀ e, req.method = "POST" →
      (truthy req.accountSid ∧ truthy req.apiKey ∧
       truthy req.apiSecret ∧ truthy req.appSid) →
      sign (buildAccessToken (req.accountSid.getD "") (req.apiKey.getD "")
        (req.apiSecret.getD "") (req.appSid.getD "")) = .error e →
      handler sign req = ⟨500, .errorBody "Failed to generate access token"⟩) := by
  refine ⟨fun hm => ?_, fun hm hf => ?_, fun jwt hm hf hs => ?_, fun e hm hf hs => ?_⟩
  · simp [handler, handlerCore, hm]
  · simp [handler, handlerCore, hm, hf]
  · simp [handler, handlerCore, hm, hf, hs]
  · simp [handler, handlerCore, hm, hf, hs]

/-- Witness for C4: the four response shapes at concrete requests. -/
theorem tokenEndpoint_responses_witness :
    handler signOk reqGet = ⟨405, .errorBody "Method not allowed"⟩ ∧
    handler signOk reqMissingSecret =
      ⟨400, .errorBody "Missing required Twilio credentials in request body"⟩ ∧
    handler signOk reqFull = ⟨200, .tokenBody "jwt0" "web-client"⟩ ∧
    handler signFail reqFull = ⟨500, .errorBody "Failed to generate access token"⟩ :=
  ⟨(tokenEndpoint_responses signOk reqGet).1 (by decide),
   (tokenEndpoint_responses signOk reqMissingSecret).2.1 rfl (by decide),
   (tokenEndpoint_responses signOk reqFull).2.2.1 "jwt0" rfl (by decide) rfl,
   (tokenEndpoint_responses signFail reqFull).2.2.2 "bad credentials" rfl (by decide) rfl⟩

/-- C5: every access token minted by the token endpoint carries the fixed
identity `"web-client"`, the fixed ttl of 3600 seconds (1 hour), and a single
voice grant with `incomingAllow: false` bound to the supplied application
SID. -/
theorem mintedToken_fixed_fields (sign : AccessToken → Except String String)
    (req : TokenRequest) (tok : AccessToken)
    (h : (handlerCore sign req).2 = some tok) :
    tok.identity = "web-client" ∧ tok.ttl = 3600 ∧
    tok.grants = [{ outgoingApplicationSid := req.appSid.getD ""
                    incomingAllow := false }] := by
  unfold handlerCore at h
  split at h
  · exact absurd h (by simp)
  · split at h
    · exact absurd h (by simp)
    · cases hs : sign (buildAccessToken (req.accountSid.getD "") (req.apiKey.getD "")
          (req.apiSecret.getD "") (req.appSid.getD "")) <;>
        simp [hs] at h <;> rw [← h] <;> exact ⟨rfl, rfl, rfl⟩

/-- Witness for C5: the token minted for `reqFull` has the fixed fields. -/
theorem mintedToken_fixed_fields_witness :
    (buildAccessToken "AC1" "SK1" "s" "AP1").identity = "web-client" ∧
    (buildAccessToken "AC1" "SK1" "s" "AP1").ttl = 3600 ∧
    (buildAccessToken "AC1" "SK1" "s" "AP1").grants =
      [{ outgoingApplicationSid := "AP1", incomingAllow := false }] :=
  mintedToken_fixed_fields signOk reqFull (buildAccessToken "AC1" "SK1" "s" "AP1") rfl

/-- C10: field presence at the token endpoint is JavaScript truthiness — a
POST in which any of the four fields is falsy (absent or the empty string)
returns 400 and never constructs an access token. -/
theorem tokenEndpoint_truthiness (sign : AccessToken → Except String String)
    (req : TokenRequest) (hm : req.method = "POST")
    (h : truthy req.accountSid = false ∨ truthy req.apiKey = false ∨
         truthy req.apiSecret = false ∨ truthy req.appSid = false) :
    handler sign req =
      ⟨400, .errorBody "Missing required Twilio credentials in request body"⟩ ∧
    (handlerCore sign req).2 = none := by
  have hf : ¬ (truthy req.accountSid ∧ truthy req.apiKey ∧
      truthy req.apiSecret ∧ truthy req.appSid) := by
    rcases h with h|h|h|h <;> simp [h]
  constructor
  · simp [handler, handlerCore, hm, hf]
  · simp [handlerCore, hm, hf]

/-- Witness for C10: a POST whose `apiSecret` is the empty string gets 400
and no token is built. -/
theorem tokenEndpoint_truthiness_witness :
    handler signOk reqEmptySecret =
      ⟨400, .errorBody "Missing required Twilio credentials in request body"⟩ ∧
    (handlerCore signOk reqEmptySecret).2 = none :=
  tokenEndpoint_truthiness signOk reqEmptySecret rfl (by decide)

/-- C8: `areCredentialsComplete` returns `false` for every credential set in
which some field is empty after trimming, or the account SID does not start
with `"AC"`, or the API key does not start with `"SK"`, or the application
SID does not start with `"AP"`, or any of those three identifiers has
trimmed length at most 20.  (It is a plain function of its argument — no
network access.) -/
theorem areCredentialsComplete_rejects (c : Credentials)
    (h : jsTrim c.accountSid = "" ∨ jsTrim c.apiKey = "" ∨
         jsTrim c.apiSecret = "" ∨ jsTrim c.appSid = "" ∨
         jsStartsWith (jsTrim c.accountSid) "AC" = false ∨
         jsStartsWith (jsTrim c.apiKey) "SK" = false ∨
         jsStartsWith (jsTrim c.appSid) "AP" = false ∨
         jsLength (jsTrim c.accountSid) ≤ 20 ∨
         jsLength (jsTrim c.apiKey) ≤ 20 ∨
         jsLength (jsTrim c.appSid) ≤ 20) :
    areCredentialsComplete c = false := by
  simp only [areCredentialsComplete]
  split
  · rfl
  · rcases h with h|h|h|h|h|h|h|h|h|h <;> simp_all

/-- Witness for C8: a set whose account SID has the wrong prefix is
rejected. -/
theorem areCredentialsComplete_rejects_witness :
    areCredentialsComplete ⟨"XXxxxxxxxxxxxxxxxxxxxxxxxxx", vSK, "s3cret", vAP⟩ = false :=
  areCredentialsComplete_rejects ⟨"XXxxxxxxxxxxxxxxxxxxxxxxxxx", vSK, "s3cret", vAP⟩
    (by decide)

/-- C3: `handleConfigure` persists the credential set and marks the
component configured exactly when local format validation passes and the
token-endpoint probe succeeds.  When validation fails, only the status
message changes; when the probe fails, nothing is persisted, `isConfigured`
is unchanged, and (from a non-loading start) only the status message
changes. -/
theorem configure_atomic (s : ClientState) (probe : Except String Unit) :
    (areCredentialsComplete (stateCreds s) = false →
      handleConfigure probe s =
        { s with statusMessage := "Please fill in all Twilio credentials" }) ∧
    (∀ msg, areCredentialsComplete (stateCreds s) = true → probe = .error msg →
      handleConfigure probe s =
        { s with isLoading := false
                 statusMessage := "Credential validation failed: " ++ msg }) ∧
    (∀ msg, s.isLoading = false →
      areCredentialsComplete (stateCreds s) = true → probe = .error msg →
      handleConfigure probe s =
        { s with statusMessage := "Credential validation failed: " ++ msg }) ∧
    (areCredentialsComplete (stateCreds s) = true → probe = .ok () →
      (handleConfigure probe s).storage = .parsed (toStored (stateCreds s)) ∧
      (handleConfigure probe s).isConfigured = true) ∧
    ((handleConfigure probe s).storage ≠ s.storage →
      areCredentialsComplete (stateCreds s) = true ∧ probe = .ok ()) ∧
    ((handleConfigure probe s).isConfigured = true →
      s.isConfigured = true ∨
      (areCredentialsComplete (stateCreds s) = true ∧ probe = .ok ())) := by
  refine ⟨fun hv => ?_, fun msg hv hp => ?_, fun msg hL hv hp => ?_,
    fun hv hp => ?_, fun hch => ?_, fun hcf => ?_⟩
  · simp [handleConfigure, hv]
  · simp [handleConfigure, hv, hp]
  · rw [show ({ s with statusMessage := "Credential validation failed: " ++ msg } :
        ClientState) = { s with isLoading := s.isLoading
                                statusMessage := "Credential validation failed: " ++ msg }
        from rfl, hL]
    simp [handleConfigure, hv, hp]
  · simp [handleConfigure, hv, hp]
  · by_cases hv : areCredentialsComplete (stateCreds s) = true
    · cases hp : probe with
      | ok u => cases u; exact ⟨hv, rfl⟩
      | error msg => exact absurd (by simp [handleConfigure, hv, hp]) hch
    · have hv2 : areCredentialsComplete (stateCreds s) = false := by simpa using hv
      exact absurd (by simp [handleConfigure, hv2]) hch
  · by_cases hv : areCredentialsComplete (stateCreds s) = true
    · cases hp : probe with
      | ok u => cases u; exact Or.inr ⟨hv, rfl⟩
      | error msg =>
        refine Or.inl ?_
        rw [show s.isConfigured = (handleConfigure probe s).isConfigured from by
          simp [handleConfigure, hv, hp]]
        exact hcf
    · have hv2 : areCredentialsComplete (stateCreds s) = false := by simpa using hv
      refine Or.inl ?_
      rw [show s.isConfigured = (handleConfigure probe s).isConfigured from by
        simp [handleConfigure, hv2]]
      exact hcf

/-- Witness for C3: with complete well-formed credentials, a failed probe
persists nothing; a successful probe persists and configures. -/
theorem configure_atomic_witness :
    handleConfigure (.error "boom") configuredStart =
      { configuredStart with
          isLoading := false
          statusMessage := "Credential validation failed: boom" } ∧
    (handleConfigure (.ok ()) configuredStart).storage =
      .parsed (toStored (stateCreds configuredStart)) ∧
    (handleConfigure (.ok ()) configuredStart).isConfigured = true :=
  ⟨(configure_atomic configuredStart (.error "boom")).2.1 "boom" (by decide) rfl,
   (configure_atomic configuredStart (.ok ())).2.2.2.1 (by decide) rfl⟩

/-- C2 counterexample: a persisted set whose `apiSecret` equals the masked
sentinel `"***"` (the other three fields well-formed) is NOT cleared on
load — the loading effect marks the component configured and leaves the
persisted value in place, because the placeholder check only inspects
`accountSid`, `apiKey` and `appSid`. -/
theorem placeholderSecret_counterexample :
    storedMaskedSecret.apiSecret = some "***" ∧
    (loadCredentials (initialState (.parsed storedMaskedSecret))).isConfigured = true ∧
    (loadCredentials (initialState (.parsed storedMaskedSecret))).storage =
      .parsed storedMaskedSecret ∧
    (loadCredentials (initialState (.parsed storedMaskedSecret))).apiSecret = "***" := by
  refine ⟨rfl, by decide, by decide, rfl⟩

/-- C2 amended: on load, if any of `accountSid`, `apiKey` or `appSid` in the
persisted set equals the masked sentinel `"***"` (and all four fields are
truthy), the set is treated as corrupted and cleared — the persisted key is
removed, the in-memory fields are emptied and `isConfigured` stays false.
The `apiSecret` field is not checked: a set whose only sentinel field is
`apiSecret` is accepted and marked configured. -/
theorem placeholderClear_amended (s : ClientState) (c : StoredCreds)
    (hst : s.storage = .parsed c)
    (htr : truthy c.accountSid ∧ truthy c.apiKey ∧
           truthy c.apiSecret ∧ truthy c.appSid) :
    ((c.accountSid = some "***" ∨ c.apiKey = some "***" ∨ c.appSid = some "***") →
      (loadCredentials s).storage = .absent ∧
      (loadCredentials s).accountSid = "" ∧ (loadCredentials s).apiKey = "" ∧
      (loadCredentials s).apiSecret = "" ∧ (loadCredentials s).appSid = "" ∧
      (loadCredentials s).isConfigured = false) ∧
    (c.accountSid ≠ some "***" → c.apiKey ≠ some "***" → c.appSid ≠ some "***" →
      (loadCredentials s).isConfigured = true ∧
      (loadCredentials s).storage = s.storage) := by
  constructor
  · intro hmask
    simp [loadCredentials, hst, htr, hmask, clearInvalidCredentials]
  · intro h1 h2 h3
    simp [loadCredentials, hst, htr, h1, h2, h3]

/-- Witness for C2 amended: a set whose `apiKey` is the sentinel is cleared;
the `storedMaskedSecret` set (sentinel only in `apiSecret`) is accepted. -/
theorem placeholderClear_amended_witness :
    (loadCredentials (initialState
        (.parsed { storedMaskedSecret with apiKey := some "***" }))).storage =
      StoredValue.absent ∧
    (loadCredentials (initialState
        (.parsed { storedMaskedSecret with apiKey := some "***" }))).isConfigured = false ∧
    (loadCredentials (initialState (.parsed storedMaskedSecret))).isConfigured = true :=
  ⟨((placeholderClear_amended (initialState
        (.parsed { storedMaskedSecret with apiKey := some "***" }))
      { storedMaskedSecret with apiKey := some "***" } rfl (by decide)).1
      (Or.inr (Or.inl rfl))).1,
   ((placeholderClear_amended (initialState
        (.parsed { storedMaskedSecret with apiKey := some "***" }))
      { storedMaskedSecret with apiKey := some "***" } rfl (by decide)).1
      (Or.inr (Or.inl rfl))).2.2.2.2.2,
   ((placeholderClear_amended (initialState (.parsed storedMaskedSecret))
      storedMaskedSecret rfl (by decide)).2 (by decide) (by decide) (by decide)).1⟩

/-- C1 counterexample: a device-level `error` event moves the state to
`error` but schedules no timeout at all — there is no 3-second
auto-recovery to `idle` on this path. -/
theorem deviceError_counterexample :
    (onDeviceError "boom" (initialState .absent)).1.callStatus = CallStatus.error ∧
    ¬ ∃ t ∈ (onDeviceError "boom" (initialState .absent)).2,
        t.1 = 3000 ∧
        (applyTimeout t.2 (onDeviceError "boom" (initialState .absent)).1).callStatus =
          CallStatus.idle := by
  exact ⟨rfl, by simp [onDeviceError]⟩

/-- C1 amended: only the call-level error paths auto-recover.  A call
`error` event sets the `error` state and schedules a reset to `idle` (with
duration 0) after 3000 ms; the `resetToReady` timeout indeed restores
`idle` with duration 0 on any state.  A device-level `error` event sets the
`error` state but schedules nothing, and neither branch of a failed
`initializeDevice` (token fetch failure or registration failure) schedules
anything — those error states persist until the user acts. -/
theorem errorRecovery_amended :
    (∀ s msg, (onCallError msg s).1.callStatus = CallStatus.error ∧
      (onCallError msg s).2 = [(3000, TimeoutAction.resetToReady)]) ∧
    (∀ s, (applyTimeout TimeoutAction.resetToReady s).callStatus = CallStatus.idle ∧
      (applyTimeout TimeoutAction.resetToReady s).callDuration = 0) ∧
    (∀ s msg, (onDeviceError msg s).1.callStatus = CallStatus.error ∧
      (onDeviceError msg s).2 = []) ∧
    (∀ s msg, (initializeDevice (InitOutcome.fetchFail msg) s).2 = [] ∧
      (initializeDevice (InitOutcome.registerFail msg) s).2 = []) := by
  refine ⟨fun s msg => ⟨rfl, rfl⟩, fun s => ⟨rfl, rfl⟩, fun s msg => ⟨rfl, rfl⟩,
    fun s msg => ⟨?_, ?_⟩⟩ <;>
  · unfold initializeDevice
    split
    · rfl
    · rfl

/-- C7: on a `disconnect` event the status becomes `call-ended`, the
interval timer is cancelled and its reference cleared (so the duration stops
incrementing and keeps its pre-event value, e.g. 12), the call reference is
cleared, and the handler schedules a single 3000 ms timeout whose callback
returns the status to `idle` with the duration reset to 0. -/
theorem callDisconnect_lifecycle :
    ∀ s : ClientState,
      (onCallDisconnect s).1.callStatus = CallStatus.callEnded ∧
      (onCallDisconnect s).1.timerRef = none ∧
      (onCallDisconnect s).1.currentCallRef = none ∧
      (onCallDisconnect s).1.callDuration = s.callDuration ∧
      (onCallDisconnect s).2 = [(3000, TimeoutAction.resetToReady)] ∧
      (applyTimeout TimeoutAction.resetToReady (onCallDisconnect s).1).callStatus =
        CallStatus.idle ∧
      (applyTimeout TimeoutAction.resetToReady (onCallDisconnect s).1).callDuration = 0 :=
  fun _ => ⟨rfl, rfl, rfl, rfl, rfl, rfl, rfl⟩

/-- C9: `resetConfiguration` invoked mid-call leaves the interval timer
reference and the call reference untouched (the duration counter keeps
running and the `Call` is neither cleared nor disconnected), even though the
credentials are emptied, the persisted key is removed, the component is
unconfigured, the device is destroyed with its reference cleared, and the
status returns to `idle`. -/
theorem resetConfiguration_frame (s : ClientState) (t c d : Nat)
    (hs : s.callStatus = CallStatus.inCall)
    (ht : s.timerRef = some t) (hc : s.currentCallRef = some c)
    (hd : s.deviceRef = some d) :
    (resetConfiguration s).timerRef = some t ∧
    (resetConfiguration s).currentCallRef = some c ∧
    (resetConfiguration s).callDuration = s.callDuration ∧
    (resetConfiguration s).accountSid = "" ∧
    (resetConfiguration s).apiKey = "" ∧
    (resetConfiguration s).apiSecret = "" ∧
    (resetConfiguration s).appSid = "" ∧
    (resetConfiguration s).storage = StoredValue.absent ∧
    (resetConfiguration s).isConfigured = false ∧
    (resetConfiguration s).callStatus = CallStatus.idle ∧
    (resetConfiguration s).deviceRef = none ∧
    (resetConfiguration s).aliveDevices = s.aliveDevices.erase d := by
  simp [resetConfiguration, hd, ht, hc]

/-- Witness for C9: resetting `inCallState` keeps timer 0 and call 0 while
clearing configuration and destroying device 0. -/
theorem resetConfiguration_frame_witness :
    (resetConfiguration inCallState).timerRef = some 0 ∧
    (resetConfiguration inCallState).currentCallRef = some 0 ∧
    (resetConfiguration inCallState).callDuration = inCallState.callDuration ∧
    (resetConfiguration inCallState).storage = StoredValue.absent ∧
    (resetConfiguration inCallState).isConfigured = false ∧
    (resetConfiguration inCallState).callStatus = CallStatus.idle ∧
    (resetConfiguration inCallState).deviceRef = none ∧
    (resetConfiguration inCallState).aliveDevices = inCallState.aliveDevices.erase 0 := by
  have h := resetConfiguration_frame inCallState 0 0 0 rfl rfl rfl rfl
  exact ⟨h.1, h.2.1, h.2.2.1, h.2.2.2.2.2.2.2.1, h.2.2.2.2.2.2.2.2.1,
    h.2.2.2.2.2.2.2.2.2.1, h.2.2.2.2.2.2.2.2.2.2.1, h.2.2.2.2.2.2.2.2.2.2.2⟩

/-- C6 counterexample: if the first `initializeDevice` constructs a device
but `device.register()` rejects, the constructed device is neither destroyed
nor stored in `deviceRef`; a second, successful `initializeDevice` then finds
`deviceRef` empty, skips the teardown, and constructs another device — two
undestroyed devices are alive at once, only the second of them registered. -/
theorem deviceLeak_counterexample :
    ((initializeDevice .ok
        (initializeDevice (.registerFail "network error") configuredStart).1).1).aliveDevices
      = [0, 1] ∧
    ((initializeDevice .ok
        (initializeDevice (.registerFail "network error") configuredStart).1).1).registeredDevices
      = [1] ∧
    ((initializeDevice .ok
        (initializeDevice (.registerFail "network error") configuredStart).1).1).deviceRef
      = some 1 :=
  ⟨by decide, by decide, by decide⟩

/-- One successful `initializeDevice` from a state whose alive devices are
exactly the referenced one (with id bounds): afterwards exactly one device is
alive, it is referenced and registered, the credential fields are untouched,
and the id bounds still hold.  Shared stepping lemma for the double-call
property. -/
theorem initializeDevice_ok_spec (s : ClientState)
    (hcred : areCredentialsComplete (stateCreds s) = true)
    (hinv : s.aliveDevices = s.deviceRef.toList)
    (hreg : ∀ i ∈ s.registeredDevices, i < s.nextDeviceId) :
    ∃ n, (initializeDevice .ok s).1.aliveDevices = [n] ∧
      (initializeDevice .ok s).1.deviceRef = some n ∧
      n ∈ (initializeDevice .ok s).1.registeredDevices ∧
      stateCreds (initializeDevice .ok s).1 = stateCreds s ∧
      (∀ i ∈ (initializeDevice .ok s).1.registeredDevices,
        i < (initializeDevice .ok s).1.nextDeviceId) := by
  cases href : s.deviceRef with
  | none =>
    rw [href] at hinv
    refine ⟨s.nextDeviceId, ?_, ?_, ?_, ?_, ?_⟩
    · simp [initializeDevice, hcred, href, hinv, onDeviceRegistered]
    · simp [initializeDevice, hcred, href, onDeviceRegistered]
    · simp [initializeDevice, hcred, href, onDeviceRegistered]
    · simp only [initializeDevice, hcred, href]
      simp [stateCreds, onDeviceRegistered]
    · simp [initializeDevice, hcred, href, onDeviceRegistered]
      intro i hi
      rcases hi with hi | hi
      · exact Nat.lt_succ_of_lt (hreg i hi)
      · rw [hi]; exact Nat.lt_succ_self _
  | some d =>
    rw [href] at hinv
    simp at hinv
    refine ⟨s.nextDeviceId, ?_, ?_, ?_, ?_, ?_⟩
    · simp [initializeDevice, hcred, href, hinv, onDeviceRegistered]
    · simp [initializeDevice, hcred, href, onDeviceRegistered]
    · simp [initializeDevice, hcred, href, onDeviceRegistered]
    · simp only [initializeDevice, hcred, href]
      simp [stateCreds, onDeviceRegistered]
    · simp [initializeDevice, hcred, href, onDeviceRegistered]
      intro i hi
      rcases hi with hi | hi
      · exact Nat.lt_succ_of_lt (hreg i (List.mem_of_mem_erase hi))
      · rw [hi]; exact Nat.lt_succ_self _

/-- C6 amended: whenever `initializeDevice` is invoked while `deviceRef`
holds a device, that device is destroyed (it is not alive afterwards,
whatever the outcome) and the reference is cleared before the new device is
constructed; and two successive successful invocations leave exactly one
alive device, which is referenced and registered.  The qualification the
counterexample forces: when `device.register()` fails mid-initialization the
freshly constructed device is neither destroyed nor referenced, so a later
successful initialization can leave two undestroyed devices. -/
theorem singleDevice_amended (s : ClientState)
    (hcred : areCredentialsComplete (stateCreds s) = true)
    (hinv : s.aliveDevices = s.deviceRef.toList)
    (hrefb : ∀ i, s.deviceRef = some i → i < s.nextDeviceId)
    (hreg : ∀ i ∈ s.registeredDevices, i < s.nextDeviceId) :
    (∀ o i, s.deviceRef = some i → i ∉ ((initializeDevice o s).1).aliveDevices) ∧
    (∃ n, ((initializeDevice .ok ((initializeDevice .ok s).1)).1).aliveDevices = [n] ∧
      ((initializeDevice .ok ((initializeDevice .ok s).1)).1).deviceRef = some n ∧
      n ∈ ((initializeDevice .ok ((initializeDevice .ok s).1)).1).registeredDevices) := by
  constructor
  · intro o i hi
    rw [hi] at hinv
    simp at hinv
    have hlt : i < s.nextDeviceId := hrefb i hi
    cases o <;>
      simp [initializeDevice, hcred, hi, hinv, onDeviceRegistered, Nat.ne_of_lt hlt]
  · obtain ⟨n, ha1, hr1, hg1, hc1, hb1⟩ := initializeDevice_ok_spec s hcred hinv hreg
    have hinv1 : (initializeDevice .ok s).1.aliveDevices =
        (initializeDevice .ok s).1.deviceRef.toList := by rw [ha1, hr1]; rfl
    obtain ⟨m, ha2, hr2, hg2, _, _⟩ :=
      initializeDevice_ok_spec (initializeDevice .ok s).1 (by rw [hc1]; exact hcred)
        hinv1 hb1
    exact ⟨m, ha2, hr2, hg2⟩

/-- Witness for C6 amended: from a freshly configured state, destroying and
double-initializing leaves exactly device 1 alive, referenced and
registered. -/
theorem singleDevice_amended_witness :
    ∃ n, ((initializeDevice .ok ((initializeDevice .ok configuredStart).1)).1).aliveDevices = [n] ∧
      ((initializeDevice .ok ((initializeDevice .ok configuredStart).1)).1).deviceRef = some n ∧
      n ∈ ((initializeDevice .ok ((initializeDevice .ok configuredStart).1)).1).registeredDevices :=
  (singleDevice_amended configuredStart (by decide) rfl
    (fun i hi => by simp [configuredStart, initialState] at hi)
    (fun i hi => by simp [configuredStart, initialState] at hi)).2

end TwilioCallClient
